import Mathlib

/-!
Verification of the SystemAbstractions child-process supervisor ("Subprocess")
and the Win32 File backend of the Cpp-rhymu8354-StringExtensions repository.

The File operations (Move, SetSize, GetPosition, SetPosition, Peek, Read) are
embedded directly from FileWin32.cpp.  Native Win32 calls that can fail for
reasons external to this code (MoveFileA, SetEndOfFile) are passed in as a
boolean oracle; calls that always succeed on a valid open handle
(SetFilePointerEx, ReadFile within the file) are modelled as total operations
on the handle state.

The Subprocess core (launcher, exit/crash monitor, lifecycle manager) is not
part of the available sources: only its unit tests are.  Those components are
therefore modelled from the specification, and each such definition is marked
`Modelled from the spec:`.
-/

namespace SystemAbstractions

/-! ## File backend (embedded from FileWin32.cpp) -/

/-- The `File` object's stored state that `Move` touches: the `_path` member. -/
structure FileObj where
  path : String
deriving Repr, DecidableEq

/-- Embeds `File::Move` (FileWin32.cpp).  The result of the native `MoveFileA`
call is supplied as the oracle `moveFileSucceeds`.  The code returns `false`
without touching `_path` when `MoveFileA` returns 0, and otherwise assigns
`_path = newPath` and returns `true`. -/
def FileObj.Move (f : FileObj) (moveFileSucceeds : Bool) (newPath : String) :
    Bool × FileObj :=
  if moveFileSucceeds then
    (true, { f with path := newPath })
  else
    (false, f)

/-- The state of an open file handle: the byte contents and the current
read/write position.  Bytes are modelled as natural numbers. -/
structure FileState where
  data : List Nat
  pos : Nat
deriving Repr, DecidableEq

/-- Embeds `File::GetPosition` (FileWin32.cpp): `SetFilePointerEx` with
distance 0 from `FILE_CURRENT` reports the current position.  On a valid open
handle the call succeeds. -/
def FileState.GetPosition (f : FileState) : Nat := f.pos

/-- Embeds `File::SetPosition` (FileWin32.cpp): `SetFilePointerEx` from
`FILE_BEGIN`; Windows allows positioning beyond end of file. -/
def FileState.SetPosition (f : FileState) (position : Nat) : FileState :=
  { f with pos := position }

/-- Embeds the native `SetEndOfFile` call used by `File::SetSize`: on success
the file is truncated or zero-extended to the current position; on failure the
contents are unchanged.  Success is supplied as an oracle. -/
def FileState.setEndOfFile (f : FileState) (ok : Bool) : Bool × FileState :=
  if ok then
    (true, { f with data := f.data.take f.pos ++ List.replicate (f.pos - f.data.length) 0 })
  else
    (false, f)

/-- Embeds `File::SetSize` (FileWin32.cpp): records the current position, moves
the pointer to `size`, calls `SetEndOfFile`, then restores the recorded
position and returns whether `SetEndOfFile` succeeded. -/
def FileState.SetSize (f : FileState) (ok : Bool) (size : Nat) : Bool × FileState :=
  let position := f.GetPosition
  let f1 := f.SetPosition size
  let r := f1.setEndOfFile ok
  let f3 := r.2.SetPosition position
  (r.1, f3)

/-- Embeds the native `ReadFile` call on a valid open handle: it returns the
bytes from the current position, at most `numBytes` of them (fewer at end of
file), and advances the position by the amount read. -/
def FileState.readFileNative (f : FileState) (numBytes : Nat) : List Nat × FileState :=
  let chunk := (f.data.drop f.pos).take numBytes
  (chunk, { f with pos := f.pos + chunk.length })

/-- Embeds `File::Peek` (FileWin32.cpp): records the current position, calls
`ReadFile`, then moves the pointer back to the recorded position and returns
the amount (here: the bytes) read. -/
def FileState.Peek (f : FileState) (numBytes : Nat) : List Nat × FileState :=
  let position := f.GetPosition
  let r := f.readFileNative numBytes
  let f2 := r.2.SetPosition position
  (r.1, f2)

/-- Embeds `File::Read` (FileWin32.cpp): returns immediately when `numBytes`
is 0, otherwise calls `ReadFile`, which advances the position. -/
def FileState.Read (f : FileState) (numBytes : Nat) : List Nat × FileState :=
  if numBytes = 0 then ([], f) else f.readFileNative numBytes

/-! ## Subprocess core (modelled from the spec; its implementation is not in
the available sources, only its unit tests in SubprocessTests.cpp) -/

/-- Modelled from the spec: `TerminationOutcome` is a tagged variant,
`Exited(code)` or `Crashed(signal-or-exception-info)`, produced exactly once
per successful start.  (The Subprocess implementation is missing from the
sources.) -/
inductive TerminationOutcome where
  | Exited (code : Int)
  | Crashed (info : Nat)
deriving Repr, DecidableEq

/-- Modelled from the spec: the Exit/Crash Monitor's state machine has states
Idle, Watching and Reported; Reported is terminal. -/
inductive MonitorState where
  | Idle
  | Watching
  | Reported
deriving Repr, DecidableEq

/-- The two callbacks registered with `StartChild`. -/
inductive CallbackKind where
  | exitedCb
  | crashedCb
deriving Repr, DecidableEq

/-- Modelled from the spec: the Monitor's classification policy on wake — a
clean termination with any status code is reported as a normal exit, and a
fault/signal termination as a crash. -/
def classify : TerminationOutcome → CallbackKind
  | TerminationOutcome.Exited _ => CallbackKind.exitedCb
  | TerminationOutcome.Crashed _ => CallbackKind.crashedCb

/-- Modelled from the spec: one step of the Monitor state machine.  From
Watching it observes the child's termination outcome, invokes exactly one
callback and transitions to Reported; from Reported (and Idle) it performs no
further action and invokes nothing. -/
def monitorStep (s : MonitorState) (o : TerminationOutcome) :
    MonitorState × List CallbackKind :=
  match s with
  | MonitorState.Watching => (MonitorState.Reported, [classify o])
  | s => (s, [])

/-- Runs `monitorStep` a given number of times, accumulating every callback
invocation the Monitor makes. -/
def monitorRun (n : Nat) (s : MonitorState) (o : TerminationOutcome) :
    MonitorState × List CallbackKind :=
  match n with
  | 0 => (s, [])
  | Nat.succ m =>
    let r1 := monitorStep s o
    let r2 := monitorRun m r1.1 o
    (r2.1, r1.2 ++ r2.2)

/-- The platform environment the launcher sees: the set of runnable binary
images present on disk, and the platform's native executable suffix
(empty on platforms with no executable-suffix convention). -/
structure Env where
  binaries : List String
  suffix : String
deriving Repr, DecidableEq

/-- Modelled from the spec: the Native Process Launcher resolves the runnable
image: it succeeds whether or not the supplied path already carries the
platform's native executable suffix — when the caller omits the suffix the
launcher still locates the correct binary. -/
def resolveExecutable (env : Env) (path : String) : Option String :=
  if path ∈ env.binaries then some path
  else if (path ++ env.suffix) ∈ env.binaries then some (path ++ env.suffix)
  else none

/-- The lifecycle state of one Subprocess instance: the resolved image of the
running child, if any, and the state of its Monitor. -/
structure Subprocess where
  child : Option String
  monitor : MonitorState
deriving Repr, DecidableEq

/-- A Subprocess instance before any start call: no child, Monitor idle. -/
def Subprocess.init : Subprocess :=
  { child := none, monitor := MonitorState.Idle }

/-- Modelled from the spec: `StartChild(path, args, onExited, onCrashed)`
constructs the child via the launcher; on success it spins up the Monitor
bound to the two callbacks and returns true; on failure it returns false and
leaves the instance in a clean, restartable state with no Monitor created. -/
def Subprocess.StartChild (env : Env) (path : String) : Bool × Subprocess :=
  match resolveExecutable env path with
  | some bin => (true, { child := some bin, monitor := MonitorState.Watching })
  | none => (false, Subprocess.init)

/-- Modelled from the spec: the behavior of MockSubprocessProgram.  Given the
instruction "crash" it is terminated by the OS due to a fault; given any other
instruction (such as "exit" or "handles") it runs its own code path to
completion and returns a status code. -/
def mockSubprocessOutcome (instruction : String) (code : Int) : TerminationOutcome :=
  if instruction = "crash" then TerminationOutcome.Crashed 11
  else TerminationOutcome.Exited code

/-- Runs a whole test scenario: start the mock program through the launcher,
then, when the start succeeded, let the Monitor watch the child to completion
and collect every callback it invokes. -/
def runScenario (env : Env) (path : String) (instruction : String) (code : Int) :
    Bool × List CallbackKind :=
  match resolveExecutable env path with
  | some _ => (true, (monitorRun 1 MonitorState.Watching
      (mockSubprocessOutcome instruction code)).2)
  | none => (false, [])

/-- Modelled from the spec: the inherited-resource policy of the Native
Process Launcher — open descriptors of the parent are not visible to the
child unless explicitly passed through, so the child's open-handle set is
exactly the explicitly passed-through set. -/
def childHandles (parentHandles passedThrough : List Nat) : List Nat :=
  let _ := parentHandles
  passedThrough

/-- The handle set a child instructed to "report my open handles" reports as
unexpectedly inherited: its open handles that were not explicitly passed
through. -/
def unexpectedInherited (parentHandles passedThrough : List Nat) : List Nat :=
  (childHandles parentHandles passedThrough).filter
    (fun h => decide (h ∉ passedThrough))

/-- Observable events in the life of one Subprocess instance. -/
inductive Ev where
  | cb (k : CallbackKind)
  | destroyed
deriving Repr, DecidableEq

/-- Modelled from the spec: the event trace of destroying a Subprocess
instance.  Teardown joins the background Monitor task before the instance's
storage is reclaimed: when the child already terminated (outcome `some o`)
the Monitor's single callback was delivered before the join completes; when
the child is still alive (`none`) the monitoring wait is cancelled by the
join and no callback is delivered.  Either way destruction completes. -/
def destroyTrace (terminated : Option TerminationOutcome) : List Ev :=
  match terminated with
  | some o => [Ev.cb (classify o), Ev.destroyed]
  | none => [Ev.destroyed]

/-- The events occurring strictly after the destruction of the instance
completed. -/
def eventsAfterDestroyed : List Ev → List Ev
  | [] => []
  | Ev.destroyed :: rest => rest
  | _ :: rest => eventsAfterDestroyed rest

end SystemAbstractions

open SystemAbstractions

/-- A Monitor that has already reported performs no further action: running it
any number of further steps leaves it in Reported and invokes no callback. -/
theorem monitorRun_from_reported (n : Nat) (o : TerminationOutcome) :
    monitorRun n MonitorState.Reported o = (MonitorState.Reported, []) := by
  induction n with
  | zero => rfl
  | succ m ih => simp [monitorRun, monitorStep, ih]

/-- Claim C1: for every successful StartChild call the Monitor enters
Watching, and over any number of monitoring steps exactly one of the two
registered callbacks is invoked — never both, never more than once — after
which the Monitor is in its terminal Reported state and performs no further
action. -/
theorem C1_exactly_one_callback (env : Env) (path : String)
    (o : TerminationOutcome) (n : Nat)
    (hs : (Subprocess.StartChild env path).1 = true) (hn : 1 ≤ n) :
    (Subprocess.StartChild env path).2.monitor = MonitorState.Watching ∧
    (monitorRun n MonitorState.Watching o).2.length = 1 ∧
    ((monitorRun n MonitorState.Watching o).2 = [CallbackKind.exitedCb] ∨
     (monitorRun n MonitorState.Watching o).2 = [CallbackKind.crashedCb]) ∧
    (monitorRun n MonitorState.Watching o).1 = MonitorState.Reported ∧
    monitorStep MonitorState.Reported o = (MonitorState.Reported, []) := by
  have hrun : monitorRun n MonitorState.Watching o
      = (MonitorState.Reported, [classify o]) := by
    obtain ⟨m, rfl⟩ : ∃ m, n = m + 1 := ⟨n - 1, by omega⟩
    simp [monitorRun, monitorStep, monitorRun_from_reported]
  have hwatch : (Subprocess.StartChild env path).2.monitor
      = MonitorState.Watching := by
    cases hre : resolveExecutable env path with
    | some bin => simp [Subprocess.StartChild, hre]
    | none => simp [Subprocess.StartChild, hre] at hs
  refine ⟨hwatch, ?_, ?_, ?_, rfl⟩
  · rw [hrun]
    simp
  · rw [hrun]
    cases o <;> simp [classify]
  · rw [hrun]

/-- Claim C1 witness: a concrete successful start followed by two monitor
steps observing a normal exit. -/
theorem C1_exactly_one_callback_witness :
    (Subprocess.StartChild ⟨["p.e"], ".e"⟩ "p").1 = true ∧ 1 ≤ 2 ∧
    ((Subprocess.StartChild ⟨["p.e"], ".e"⟩ "p").2.monitor = MonitorState.Watching ∧
     (monitorRun 2 MonitorState.Watching (TerminationOutcome.Exited 0)).2.length = 1 ∧
     ((monitorRun 2 MonitorState.Watching (TerminationOutcome.Exited 0)).2
        = [CallbackKind.exitedCb] ∨
      (monitorRun 2 MonitorState.Watching (TerminationOutcome.Exited 0)).2
        = [CallbackKind.crashedCb]) ∧
     (monitorRun 2 MonitorState.Watching (TerminationOutcome.Exited 0)).1
        = MonitorState.Reported ∧
     monitorStep MonitorState.Reported (TerminationOutcome.Exited 0)
        = (MonitorState.Reported, [])) :=
  ⟨by decide, by decide,
   C1_exactly_one_callback ⟨["p.e"], ".e"⟩ "p" (TerminationOutcome.Exited 0) 2
     (by decide) (by decide)⟩

/-- Claim C2: a child started with the "exit" instruction, with any exit
value, triggers the normal-exit callback and never the crash callback,
whatever the platform environment and however the binary was named, as long
as the start succeeded. -/
theorem C2_exit_reports_exited (env : Env) (path : String) (code : Int)
    (hs : (runScenario env path "exit" code).1 = true) :
    (runScenario env path "exit" code).2 = [CallbackKind.exitedCb] ∧
    CallbackKind.crashedCb ∉ (runScenario env path "exit" code).2 := by
  cases hre : resolveExecutable env path with
  | some bin =>
    simp [runScenario, hre, monitorRun, monitorStep, monitorRun_from_reported,
      mockSubprocessOutcome, classify]
  | none => simp [runScenario, hre] at hs

/-- Claim C2 witness: the concrete scenario of the SubprocessTests.Exit test. -/
theorem C2_exit_reports_exited_witness :
    (runScenario ⟨["MockSubprocessProgram.exe"], ".exe"⟩
        "MockSubprocessProgram" "exit" 0).1 = true ∧
    ((runScenario ⟨["MockSubprocessProgram.exe"], ".exe"⟩
        "MockSubprocessProgram" "exit" 0).2 = [CallbackKind.exitedCb] ∧
     CallbackKind.crashedCb ∉ (runScenario ⟨["MockSubprocessProgram.exe"], ".exe"⟩
        "MockSubprocessProgram" "exit" 0).2) :=
  ⟨by decide,
   C2_exit_reports_exited ⟨["MockSubprocessProgram.exe"], ".exe"⟩
     "MockSubprocessProgram" 0 (by decide)⟩

/-- Claim C3: a child started with the "crash" instruction triggers the crash
callback and never the normal-exit callback. -/
theorem C3_crash_reports_crashed (env : Env) (path : String) (code : Int)
    (hs : (runScenario env path "crash" code).1 = true) :
    (runScenario env path "crash" code).2 = [CallbackKind.crashedCb] ∧
    CallbackKind.exitedCb ∉ (runScenario env path "crash" code).2 := by
  cases hre : resolveExecutable env path with
  | some bin =>
    simp [runScenario, hre, monitorRun, monitorStep, monitorRun_from_reported,
      mockSubprocessOutcome, classify]
  | none => simp [runScenario, hre] at hs

/-- Claim C3 witness: the concrete scenario of the SubprocessTests.Crash test. -/
theorem C3_crash_reports_crashed_witness :
    (runScenario ⟨["MockSubprocessProgram"], ""⟩
        "MockSubprocessProgram" "crash" 0).1 = true ∧
    ((runScenario ⟨["MockSubprocessProgram"], ""⟩
        "MockSubprocessProgram" "crash" 0).2 = [CallbackKind.crashedCb] ∧
     CallbackKind.exitedCb ∉ (runScenario ⟨["MockSubprocessProgram"], ""⟩
        "MockSubprocessProgram" "crash" 0).2) :=
  ⟨by decide,
   C3_crash_reports_crashed ⟨["MockSubprocessProgram"], ""⟩
     "MockSubprocessProgram" 0 (by decide)⟩

/-- Claim C4: destroying a Subprocess instance joins the Monitor, so no
callback event ever occurs after destruction has completed, and destruction
itself always completes (the trace always ends with the destroyed event),
whether or not the child had terminated. -/
theorem C4_no_callback_after_destroy (terminated : Option TerminationOutcome) :
    eventsAfterDestroyed (destroyTrace terminated) = [] ∧
    (destroyTrace terminated).getLast? = some Ev.destroyed := by
  cases terminated with
  | none => simp [destroyTrace, eventsAfterDestroyed]
  | some o => simp [destroyTrace, eventsAfterDestroyed]

/-- Claim C5: the child's open-handle set is exactly the explicitly
passed-through handles, so a child instructed to report unexpectedly
inherited descriptors reports none, and with nothing passed through its
reported handle set has size zero, for every parent handle set. -/
theorem C5_no_inherited_handles (parentHandles passedThrough : List Nat) :
    unexpectedInherited parentHandles passedThrough = [] ∧
    (childHandles parentHandles []).length = 0 := by
  constructor
  · simp [unexpectedInherited, childHandles, List.filter_eq_nil_iff]
  · simp [childHandles]

/-- Claim C6: when the launcher resolves the path, StartChild returns true
and the Monitor is started (Watching); when it does not, StartChild returns
false, no Monitor is created, and the instance is left in the clean initial
state from which a start with a resolvable path succeeds. -/
theorem C6_startchild_success_and_failure (env : Env) (path restartPath : String)
    (hr : (resolveExecutable env restartPath).isSome = true) :
    ((resolveExecutable env path).isSome = true →
      (Subprocess.StartChild env path).1 = true ∧
      (Subprocess.StartChild env path).2.monitor = MonitorState.Watching) ∧
    ((resolveExecutable env path).isSome = false →
      (Subprocess.StartChild env path).1 = false ∧
      (Subprocess.StartChild env path).2 = Subprocess.init ∧
      (Subprocess.StartChild env restartPath).1 = true) := by
  have hrestart : (Subprocess.StartChild env restartPath).1 = true := by
    cases hre : resolveExecutable env restartPath with
    | some bin => simp [Subprocess.StartChild, hre]
    | none => simp [hre] at hr
  constructor
  · intro hsome
    obtain ⟨bin, hre⟩ := Option.isSome_iff_exists.mp hsome
    simp [Subprocess.StartChild, hre]
  · intro hnone
    have hre : resolveExecutable env path = none := by
      cases hre2 : resolveExecutable env path with
      | some b => simp [hre2] at hnone
      | none => rfl
    exact ⟨by simp [Subprocess.StartChild, hre],
      by simp [Subprocess.StartChild, hre], hrestart⟩

/-- Claim C6 witness: starting a nonexistent program fails cleanly and the
instance then starts an existing program. -/
theorem C6_startchild_success_and_failure_witness :
    (resolveExecutable ⟨["p.e"], ".e"⟩ "p").isSome = true ∧
    (((resolveExecutable ⟨["p.e"], ".e"⟩ "q").isSome = true →
       (Subprocess.StartChild ⟨["p.e"], ".e"⟩ "q").1 = true ∧
       (Subprocess.StartChild ⟨["p.e"], ".e"⟩ "q").2.monitor = MonitorState.Watching) ∧
     ((resolveExecutable ⟨["p.e"], ".e"⟩ "q").isSome = false →
       (Subprocess.StartChild ⟨["p.e"], ".e"⟩ "q").1 = false ∧
       (Subprocess.StartChild ⟨["p.e"], ".e"⟩ "q").2 = Subprocess.init ∧
       (Subprocess.StartChild ⟨["p.e"], ".e"⟩ "p").1 = true)) :=
  ⟨by decide,
   C6_startchild_success_and_failure ⟨["p.e"], ".e"⟩ "q" "p" (by decide)⟩

/-- Claim C7: on a platform with an executable-suffix convention, when the
on-disk binary carries the suffix, StartChild succeeds both for the suffixed
and for the unsuffixed caller path, and both resolve to the same binary. -/
theorem C7_suffix_optional (env : Env) (p : String)
    (hbin : (p ++ env.suffix) ∈ env.binaries) (hnot : p ∉ env.binaries) :
    resolveExecutable env p = some (p ++ env.suffix) ∧
    resolveExecutable env (p ++ env.suffix) = some (p ++ env.suffix) ∧
    (Subprocess.StartChild env p).1 = true ∧
    (Subprocess.StartChild env (p ++ env.suffix)).1 = true ∧
    (Subprocess.StartChild env p).2.child
      = (Subprocess.StartChild env (p ++ env.suffix)).2.child := by
  have h1 : resolveExecutable env p = some (p ++ env.suffix) := by
    simp [resolveExecutable, hbin, hnot]
  have h2 : resolveExecutable env (p ++ env.suffix) = some (p ++ env.suffix) := by
    simp [resolveExecutable, hbin]
  refine ⟨h1, h2, ?_, ?_, ?_⟩ <;>
    simp [Subprocess.StartChild, h1, h2]

/-- Claim C7 witness: the Windows scenario of SubprocessTests, with and
without the ".exe" suffix. -/
theorem C7_suffix_optional_witness :
    ("MockSubprocessProgram" ++ (".exe" : String)) ∈
        (["MockSubprocessProgram.exe"] : List String) ∧
    ("MockSubprocessProgram" : String) ∉ (["MockSubprocessProgram.exe"] : List String) ∧
    (resolveExecutable ⟨["MockSubprocessProgram.exe"], ".exe"⟩ "MockSubprocessProgram"
      = some ("MockSubprocessProgram" ++ ".exe") ∧
     resolveExecutable ⟨["MockSubprocessProgram.exe"], ".exe"⟩
        ("MockSubprocessProgram" ++ ".exe")
      = some ("MockSubprocessProgram" ++ ".exe") ∧
     (Subprocess.StartChild ⟨["MockSubprocessProgram.exe"], ".exe"⟩
        "MockSubprocessProgram").1 = true ∧
     (Subprocess.StartChild ⟨["MockSubprocessProgram.exe"], ".exe"⟩
        ("MockSubprocessProgram" ++ ".exe")).1 = true ∧
     (Subprocess.StartChild ⟨["MockSubprocessProgram.exe"], ".exe"⟩
        "MockSubprocessProgram").2.child
      = (Subprocess.StartChild ⟨["MockSubprocessProgram.exe"], ".exe"⟩
        ("MockSubprocessProgram" ++ ".exe")).2.child) :=
  ⟨by decide, by decide,
   C7_suffix_optional ⟨["MockSubprocessProgram.exe"], ".exe"⟩ "MockSubprocessProgram"
     (by decide) (by decide)⟩

/-! ## Theorems for the File claims -/

/-- Claim C8: `File::Move` is atomic with respect to the stored path.  If the
underlying `MoveFileA` rename fails, `Move` returns `false` and the stored
path is unchanged; if it succeeds, `Move` returns `true` and the stored path
equals the new path. -/
theorem C8_move_atomic (f : SystemAbstractions.FileObj) (ok : Bool) (newPath : String) :
    (f.Move ok newPath).1 = ok ∧
    (f.Move ok newPath).2.path = (if ok then newPath else f.path) := by
  cases ok <;> simp [SystemAbstractions.FileObj.Move]

/-- Claim C9: `File::SetSize` leaves the file's current read/write position
unchanged, whether or not the size change (the `SetEndOfFile` call) succeeded. -/
theorem C9_setsize_preserves_position
    (f : SystemAbstractions.FileState) (ok : Bool) (size : Nat) :
    (f.SetSize ok size).2.pos = f.pos := by
  cases ok <;>
    simp [SystemAbstractions.FileState.SetSize, SystemAbstractions.FileState.SetPosition,
      SystemAbstractions.FileState.setEndOfFile, SystemAbstractions.FileState.GetPosition]

/-- Claim C10: `File::Peek` does not advance the file position: after a `Peek`
the position equals the position before the call, and a `Peek` followed by a
`Read` of the same length returns the same bytes the `Peek` returned. -/
theorem C10_peek_preserves_position
    (f : SystemAbstractions.FileState) (numBytes : Nat) :
    (f.Peek numBytes).2.pos = f.pos ∧
    ((f.Peek numBytes).2.Read numBytes).1 = (f.Peek numBytes).1 := by
  constructor
  · simp [SystemAbstractions.FileState.Peek, SystemAbstractions.FileState.SetPosition,
      SystemAbstractions.FileState.readFileNative, SystemAbstractions.FileState.GetPosition]
  · by_cases h : numBytes = 0
    · subst h
      simp [SystemAbstractions.FileState.Peek, SystemAbstractions.FileState.Read,
        SystemAbstractions.FileState.readFileNative, SystemAbstractions.FileState.SetPosition,
        SystemAbstractions.FileState.GetPosition]
    · simp [SystemAbstractions.FileState.Peek, SystemAbstractions.FileState.Read,
        SystemAbstractions.FileState.readFileNative, SystemAbstractions.FileState.SetPosition,
        SystemAbstractions.FileState.GetPosition, h]
